import Mathlib

/-!
Verification of the upload-processing pipeline of the Document Text Extractor
application (an Express/TypeScript server).

Shallow embedding of the server-side code:
  - `calculateAge`        from src/server/routes.ts (lines 51-65)
  - `extractTextFromFile` from src/server/routes.ts (lines 75-91)
  - the POST /api/upload handler from src/server/routes.ts (lines 113-168),
    together with the multer middleware configuration (lines 28-42)
  - the GET /api/document/:id handler from src/server/routes.ts (lines 180-200)
  - `MemStorage` from src/server/storage.ts (lines 35-65)
  - `uploadSchema` (Zod) from the shared schema module

The opaque third-party capabilities (pdf-parse, Tesseract OCR) are modelled as
oracles attached to the uploaded file: each file carries the outcome (returned
text or raised exception message) that the corresponding library call would
produce on its bytes.  JavaScript numbers that can be NaN (the age computed
from an unparsable date string) are modelled as `Option Int`, `none` standing
for NaN.
-/

deriving instance DecidableEq for Except

/-- Calendar date as the JavaScript `Date` accessors expose it:
`year` = `getFullYear()`, `month` = month number, `day` = `getDate()`.
(JavaScript's `getMonth()` is 0-based; `calculateAge` only subtracts and
compares months of two dates obtained the same way, so the basis cancels and
we use the ordinary 1-based month number.) -/
structure Date where
  year : Nat
  month : Nat
  day : Nat
deriving DecidableEq, Repr

/-- Embeds `calculateAge` from src/server/routes.ts:
`age = today.getFullYear() - birthDate.getFullYear()`;
`monthDiff = today.getMonth() - birthDate.getMonth()`;
decrement when `monthDiff < 0 || (monthDiff === 0 && today.getDate() < birthDate.getDate())`.
The reference date (`today` in the code, taken from the wall clock) is an
explicit argument. -/
def calculateAge (dateOfBirth today : Date) : Int :=
  let age : Int := (today.year : Int) - (dateOfBirth.year : Int)
  let monthDiff : Int := (today.month : Int) - (dateOfBirth.month : Int)
  if monthDiff < 0 ∨ (monthDiff = 0 ∧ today.day < dateOfBirth.day) then age - 1 else age

/-- Strict calendar order on dates: `a` is strictly before `b`. -/
def dateBefore (a b : Date) : Prop :=
  a.year < b.year ∨
    (a.year = b.year ∧ (a.month < b.month ∨ (a.month = b.month ∧ a.day < b.day)))

instance (a b : Date) : Decidable (dateBefore a b) := by
  unfold dateBefore
  exact inferInstance

/-- Splits a character list on a separator character (used to model splitting
a `YYYY-MM-DD` string at the dashes). -/
def splitOn (sep : Char) : List Char → List (List Char)
  | [] => [[]]
  | c :: cs =>
    let rest := splitOn sep cs
    if c = sep then [] :: rest
    else
      match rest with
      | [] => [[c]]
      | g :: gs => (c :: g) :: gs

/-- Value of a non-empty all-digit character list in base 10, `none` otherwise. -/
def digitsToNat? (cs : List Char) : Option Nat :=
  if cs.isEmpty then none
  else if cs.all Char.isDigit then
    some (cs.foldl (fun a c => a * 10 + (c.toNat - 48)) 0)
  else none

/-- Models `new Date(s)` applied to the form's date-of-birth string: an ISO
`YYYY-MM-DD` string denoting a plausible calendar date yields that date; any
string that does not parse yields JavaScript's Invalid Date, i.e. `none`
(every accessor then returns NaN). -/
def parseDateISO (s : String) : Option Date :=
  match splitOn '-' s.data with
  | [y, m, d] =>
    match digitsToNat? y, digitsToNat? m, digitsToNat? d with
    | some yn, some mn, some dn =>
      if 1 ≤ mn ∧ mn ≤ 12 ∧ 1 ≤ dn ∧ dn ≤ 31 then some ⟨yn, mn, dn⟩ else none
    | _, _, _ => none
  | _ => none

/-- `calculateAge` as the upload handler invokes it, on the raw form string:
when the string does not parse, every arithmetic step produces NaN and the
resulting age is NaN, modelled as `none`. -/
def calculateAgeJS (dateOfBirth : String) (today : Date) : Option Int :=
  (parseDateISO dateOfBirth).map (fun d => calculateAge d today)

/-- Embeds the `ProcessedDocument` record (shared schema): the stored entity.
`age` is `Option Int` because the code stores whatever JavaScript number
`calculateAge` produced, NaN included (`none` = NaN).  `createdAt` is the
timestamp `new Date()` taken at creation, abstracted to an integer clock
value. -/
structure ProcessedDocument where
  id : Int
  firstName : String
  lastName : String
  dateOfBirth : String
  fullName : String
  age : Option Int
  extractedText : String
  fileName : String
  fileType : String
  createdAt : Int
deriving DecidableEq, Repr

/-- Embeds `InsertDocument` (shared schema): the fields the caller supplies to
`createDocument`, i.e. a `ProcessedDocument` without `id` and `createdAt`. -/
structure InsertDocument where
  firstName : String
  lastName : String
  dateOfBirth : String
  fullName : String
  age : Option Int
  extractedText : String
  fileName : String
  fileType : String
deriving DecidableEq, Repr

/-- Embeds `MemStorage` from src/server/storage.ts: a `Map<number,
ProcessedDocument>` (modelled as an association list whose most recent binding
comes first, matching `Map.get` on store-assigned distinct keys) and the
auto-incrementing `currentId` counter.  Ids are `Int` because lookup ids come
from JavaScript `parseInt` and may be negative. -/
structure MemStorage where
  documents : List (Int × ProcessedDocument)
  currentId : Int
deriving DecidableEq, Repr

/-- The freshly constructed store: `this.documents = new Map(); this.currentId = 1`. -/
def MemStorage.empty : MemStorage := ⟨[], 1⟩

/-- Embeds `MemStorage.createDocument`: take `id = this.currentId++`, build the
document with the insert fields plus `id` and `createdAt = new Date()` (the
clock value is the explicit `now` argument), store it under `id`, return it. -/
def MemStorage.createDocument (s : MemStorage) (d : InsertDocument) (now : Int) :
    ProcessedDocument × MemStorage :=
  let id := s.currentId
  let doc : ProcessedDocument :=
    { id := id
      firstName := d.firstName
      lastName := d.lastName
      dateOfBirth := d.dateOfBirth
      fullName := d.fullName
      age := d.age
      extractedText := d.extractedText
      fileName := d.fileName
      fileType := d.fileType
      createdAt := now }
  (doc, ⟨(id, doc) :: s.documents, id + 1⟩)

/-- Embeds `MemStorage.getDocument`: `this.documents.get(id)`, `undefined`
(here `none`) when absent. -/
def MemStorage.getDocument (s : MemStorage) (id : Int) : Option ProcessedDocument :=
  (s.documents.find? (fun p => p.1 == id)).map (fun p => p.2)

/-- A sequence of `createDocument` calls, each with its insert data and the
clock value observed at that call; returns the documents in call order and the
final store. -/
def MemStorage.createMany (s : MemStorage) :
    List (InsertDocument × Int) → List ProcessedDocument × MemStorage
  | [] => ([], s)
  | (d, now) :: rest =>
    let r := s.createDocument d now
    let rs := r.2.createMany rest
    (r.1 :: rs.1, rs.2)

/-- Outcome of one call into an opaque third-party capability (pdf-parse or
Tesseract): either it returns extracted text, or it raises an exception with
the given message. -/
inductive LibResult where
  | ok (text : String)
  | raise (msg : String)
deriving DecidableEq, Repr

/-- The multer file object as the handler sees it (`req.file`): original name,
MIME type, byte size, plus the two capability oracles describing what
pdf-parse and Tesseract would do on this file's bytes (the bytes themselves
are opaque; only these outcomes matter to the server code). -/
structure FileInfo where
  originalname : String
  mimetype : String
  size : Nat
  pdfOutcome : LibResult
  ocrOutcome : LibResult
deriving DecidableEq, Repr

/-- The multer `fileFilter` allow-list from src/server/routes.ts. -/
def allowedTypes : List String := ["image/jpeg", "image/jpg", "image/png", "application/pdf"]

/-- The multer `limits.fileSize` bound: `10 * 1024 * 1024` bytes. -/
def maxFileSize : Nat := 10 * 1024 * 1024

/-- Observable validation/processing steps of one upload request, recorded in
the order the code performs them. -/
inductive Event where
  | mimeChecked
  | sizeChecked
  | missingFileReported
  | schemaChecked
  | extractionAttempted
  | documentCreated
deriving DecidableEq, Repr

/-- Embeds the multer middleware stage (src/server/routes.ts lines 28-42) run
on a present file before the route handler: `fileFilter` rejects MIME types
outside `allowedTypes` with the configured error message; then the streamed
size limit rejects files over `maxFileSize` (multer's LIMIT_FILE_SIZE error,
message "File too large").  Returns the rejection message if any, and the
checks performed. -/
def multerStage (f : FileInfo) : Option String × List Event :=
  if f.mimetype ∈ allowedTypes then
    if f.size ≤ maxFileSize then (none, [.mimeChecked, .sizeChecked])
    else (some "File too large", [.mimeChecked, .sizeChecked])
  else (some "Invalid file type. Only PDF and images (JPG, PNG) are allowed.", [.mimeChecked])

/-- Zod's per-field outcome for one `z.string().min(1, msg)` field: a missing
field fails with "Required", an empty string fails with the configured
message, any non-empty string passes. -/
def fieldErrors (field msg : String) : Option String → List (String × String)
  | none => [(field, "Required")]
  | some s => if s.isEmpty then [(field, msg)] else []

/-- Embeds `uploadSchema.parse(req.body)` (shared schema `uploadSchema`):
`firstName`, `lastName`, `dateOfBirth` are each `z.string().min(1, ...)`.
Success returns the three validated strings; failure returns the collected
per-field `(path, message)` errors of the ZodError. -/
def zodCheck (firstName lastName dateOfBirth : Option String) :
    Except (List (String × String)) (String × String × String) :=
  let errs := fieldErrors "firstName" "First name is required" firstName
      ++ fieldErrors "lastName" "Last name is required" lastName
      ++ fieldErrors "dateOfBirth" "Date of birth is required" dateOfBirth
  match firstName, lastName, dateOfBirth with
  | some a, some b, some c => if errs.isEmpty then .ok (a, b, c) else .error errs
  | _, _, _ => .error errs

/-- Embeds `extractTextFromFile` from src/server/routes.ts: dispatch on
`file.mimetype` — `application/pdf` goes to pdf-parse, anything whose MIME
type starts with `image/` (the code's `mimetype.startsWith('image/')`,
written here as a character-list prefix test) goes to Tesseract OCR, anything
else throws `Unsupported file type`; the surrounding try/catch re-throws
every exception as `Text extraction failed: ${error.message}`. -/
def extractTextFromFile (f : FileInfo) : Except String String :=
  if f.mimetype = "application/pdf" then
    match f.pdfOutcome with
    | .ok t => .ok t
    | .raise m => .error ("Text extraction failed: " ++ m)
  else if "image/".data.isPrefixOf f.mimetype.data then
    match f.ocrOutcome with
    | .ok t => .ok t
    | .raise m => .error ("Text extraction failed: " ++ m)
  else .error ("Text extraction failed: Unsupported file type")

/-- One upload request as it reaches the server: the optional file and the
three body fields (absent fields are `none`). -/
structure UploadRequest where
  file : Option FileInfo
  firstName : Option String
  lastName : Option String
  dateOfBirth : Option String
deriving DecidableEq, Repr

/-- Response of the POST /api/upload route: the 200 JSON subset
`{id, fullName, age, extractedText, fileName, fileType}` on success, the 400
`{message: 'Invalid form data', errors}` shape for a ZodError, or a bare
`{message}` failure with its HTTP status. -/
inductive UploadResponse where
  | success (id : Int) (fullName : String) (age : Option Int)
      (extractedText fileName fileType : String)
  | invalidForm (errors : List (String × String))
  | failure (status : Nat) (message : String)
deriving DecidableEq, Repr

/-- HTTP status of an upload response (`invalidForm` is sent with 400). -/
def UploadResponse.status : UploadResponse → Nat
  | .success _ _ _ _ _ _ => 200
  | .invalidForm _ => 400
  | .failure s _ => s

/-- Whether an upload response is the 200 success shape. -/
def UploadResponse.isSuccess : UploadResponse → Bool
  | .success _ _ _ _ _ _ => true
  | _ => false

/-- Embeds the POST /api/upload pipeline (src/server/routes.ts lines 113-168
plus the multer stage): multer processes the file when present (MIME filter,
then size limit; a multer error reaches Express's default error handler, not
the route); then the handler checks `req.file`, parses the body with
`uploadSchema`, extracts text, computes `age` and `fullName`, persists via
`storage.createDocument`, and answers with the success subset.  `now` is the
`createdAt` clock value, `today` the wall-clock date `calculateAge` reads.
Alongside response and store the performed `Event`s are returned in order. -/
def uploadHandler (s : MemStorage) (req : UploadRequest) (now : Int) (today : Date) :
    UploadResponse × MemStorage × List Event :=
  match req.file with
  | none => (.failure 400 "No file uploaded", s, [.missingFileReported])
  | some f =>
    match multerStage f with
    | (some msg, evs) => (.failure 500 msg, s, evs)
    | (none, evs) =>
      match zodCheck req.firstName req.lastName req.dateOfBirth with
      | .error errs => (.invalidForm errs, s, evs ++ [.schemaChecked])
      | .ok (fn, ln, dob) =>
        match extractTextFromFile f with
        | .error m => (.failure 500 m, s, evs ++ [.schemaChecked, .extractionAttempted])
        | .ok text =>
          let age := calculateAgeJS dob today
          let fullName := fn ++ " " ++ ln
          let r := s.createDocument
            { firstName := fn
              lastName := ln
              dateOfBirth := dob
              fullName := fullName
              age := age
              extractedText := text
              fileName := f.originalname
              fileType := f.mimetype } now
          (.success r.1.id r.1.fullName r.1.age r.1.extractedText r.1.fileName r.1.fileType,
           r.2, evs ++ [.schemaChecked, .extractionAttempted, .documentCreated])

/-- Base-10 value of the leading digit run of a character list, `none` when it
starts with no digit (the NaN case of `parseInt`). -/
def leadingDigitsVal (cs : List Char) : Option Nat :=
  let ds := cs.takeWhile Char.isDigit
  if ds.isEmpty then none
  else some (ds.foldl (fun a c => a * 10 + (c.toNat - 48)) 0)

/-- A hexadecimal digit, as `parseInt`'s radix-16 mode accepts: 0-9, a-f, A-F. -/
def isHexDigitChar (c : Char) : Bool :=
  c.isDigit || ('a' ≤ c && c ≤ 'f') || ('A' ≤ c && c ≤ 'F')

/-- Numeric value of one hexadecimal digit. -/
def hexDigitVal (c : Char) : Nat :=
  if c.isDigit then c.toNat - 48
  else if 'a' ≤ c then c.toNat - 87
  else c.toNat - 55

/-- Base-16 value of the leading hex-digit run of a character list, `none`
when it starts with no hex digit (so `parseInt('0x')` is NaN). -/
def leadingHexDigitsVal (cs : List Char) : Option Nat :=
  let ds := cs.takeWhile isHexDigitChar
  if ds.isEmpty then none
  else some (ds.foldl (fun a c => a * 16 + hexDigitVal c) 0)

/-- Magnitude part of ECMAScript `parseInt` with no radix argument, applied
after whitespace and sign have been consumed: a leading `0x` or `0X` switches
to radix 16 and is stripped (NaN when no hex digit follows it); otherwise the
longest run of base-10 digits is read (NaN when there is none). -/
def parseIntMagnitude : List Char → Option Nat
  | '0' :: 'x' :: r => leadingHexDigitsVal r
  | '0' :: 'X' :: r => leadingHexDigitsVal r
  | r => leadingDigitsVal r

/-- Models JavaScript `parseInt(s)` (no radix argument) on the id path
segment: skip leading whitespace, read an optional sign, then the magnitude —
radix 16 after a `0x`/`0X` prefix, radix 10 otherwise; `NaN` (here `none`)
when no digit of the selected radix follows. -/
def parseIntJS (s : String) : Option Int :=
  match s.data.dropWhile Char.isWhitespace with
  | '-' :: r => (parseIntMagnitude r).map (fun n => -(n : Int))
  | '+' :: r => (parseIntMagnitude r).map (fun n => (n : Int))
  | r => (parseIntMagnitude r).map (fun n => (n : Int))

/-- Response of the GET /api/document/:id route: the full stored document as
JSON, or a `{message}` failure with its HTTP status. -/
inductive DocResponse where
  | ok (doc : ProcessedDocument)
  | err (status : Nat) (message : String)
deriving DecidableEq, Repr

/-- Embeds the GET /api/document/:id handler (src/server/routes.ts lines
180-200): `parseInt(req.params.id)`, 400 "Invalid document ID" on NaN; then
`storage.getDocument(id)`, 404 "Document not found" when absent; otherwise 200
with the complete document. -/
def getDocumentHandler (s : MemStorage) (idStr : String) : DocResponse :=
  match parseIntJS idStr with
  | none => .err 400 "Invalid document ID"
  | some id =>
    match s.getDocument id with
    | none => .err 404 "Document not found"
    | some doc => .ok doc

/-- Modelled from the spec: the `YYYY-MM-DD` well-formedness requirement the
spec states for `dateOfBirth` ("must be provided in YYYY-MM-DD form").  The
repository's `uploadSchema` contains no such check, so this requirement
exists only in the spec's words; it is defined here to state claim C7.  A
string is in `YYYY-MM-DD` form when it is three dash-separated all-digit
groups of widths 4, 2 and 2. -/
def isYYYYMMDDSpec (s : String) : Bool :=
  match splitOn '-' s.data with
  | [y, m, d] =>
    (y.length == 4) && (m.length == 2) && (d.length == 2)
      && y.all Char.isDigit && m.all Char.isDigit && d.all Char.isDigit
  | _ => false

/-- A concrete insert record used by witnesses. -/
def sampleInsert : InsertDocument :=
  ⟨"Jane", "Doe", "2000-03-15", "Jane Doe", some 24, "some text", "f.pdf", "application/pdf"⟩

/-- A concrete well-formed PDF upload file whose pdf-parse oracle succeeds. -/
def samplePdf : FileInfo := ⟨"f.pdf", "application/pdf", 100, .ok "hello", .ok "hello"⟩

/-- A concrete PDF upload file whose pdf-parse oracle raises "boom". -/
def brokenPdf : FileInfo := ⟨"f.pdf", "application/pdf", 100, .raise "boom", .ok "x"⟩

/-- A concrete one-document store used by witnesses. -/
def sampleStore : MemStorage := (MemStorage.empty.createDocument sampleInsert 5).2

/-- The document `sampleStore` holds under id 1. -/
def sampleStored : ProcessedDocument :=
  ⟨1, "Jane", "Doe", "2000-03-15", "Jane Doe", some 24, "some text", "f.pdf",
   "application/pdf", 5⟩

/-- A store reached by sixteen creates, so that id 16 is assigned; used by the
C6 witness for the hexadecimal path segment "0x10". -/
def hexStore : MemStorage :=
  (MemStorage.empty.createMany (List.replicate 16 (sampleInsert, 5))).2

/-- The document `hexStore` holds under id 16. -/
def hexStored : ProcessedDocument :=
  ⟨16, "Jane", "Doe", "2000-03-15", "Jane Doe", some 24, "some text", "f.pdf",
   "application/pdf", 5⟩

/-- Claim C1: the age algorithm is year difference, decremented by 1 exactly
when the reference date's (month, day) is lexicographically less than the
birth date's (month, day); at dob 2000-03-15 it returns 23 on 2024-03-14, 24
on 2024-03-15 and 24 on 2024-03-16. -/
theorem claim_C1_age_algorithm :
    (∀ dob ref : Date,
        calculateAge dob ref =
          if ref.month < dob.month ∨ (ref.month = dob.month ∧ ref.day < dob.day)
          then (ref.year : Int) - (dob.year : Int) - 1
          else (ref.year : Int) - (dob.year : Int)) ∧
    calculateAge ⟨2000, 3, 15⟩ ⟨2024, 3, 14⟩ = 23 ∧
    calculateAge ⟨2000, 3, 15⟩ ⟨2024, 3, 15⟩ = 24 ∧
    calculateAge ⟨2000, 3, 15⟩ ⟨2024, 3, 16⟩ = 24 := by
  refine ⟨fun dob ref => ?_, by decide, by decide, by decide⟩
  simp only [calculateAge]
  split_ifs with h1 h2 h2 <;> omega

/-- Claim C9: for every date of birth strictly before the reference date, the
age calculator returns a non-negative integer. -/
theorem claim_C9_age_nonneg (dob ref : Date) (h : dateBefore dob ref) :
    0 ≤ calculateAge dob ref := by
  unfold dateBefore at h
  simp only [calculateAge]
  split_ifs with h1 <;> omega

/-- Witness for C9 at dob 2000-03-15, reference date 2024-03-14. -/
theorem claim_C9_witness :
    dateBefore ⟨2000, 3, 15⟩ ⟨2024, 3, 14⟩ ∧ 0 ≤ calculateAge ⟨2000, 3, 15⟩ ⟨2024, 3, 14⟩ :=
  ⟨by decide, claim_C9_age_nonneg ⟨2000, 3, 15⟩ ⟨2024, 3, 14⟩ (by decide)⟩

/-- Claim C2: a document returned by `createDocument` is returned unchanged,
equal in all fields, by a subsequent `getDocument` with its id. -/
theorem claim_C2_create_then_get (s : MemStorage) (d : InsertDocument) (now : Int) :
    ((s.createDocument d now).2).getDocument ((s.createDocument d now).1).id
      = some ((s.createDocument d now).1) := by
  simp [MemStorage.createDocument, MemStorage.getDocument, List.find?_cons]

/-- `getDocument` on a store whose most recent binding is `(k, doc)` returns
`doc` for key `k` and defers to the older bindings otherwise. -/
theorem getDocument_cons (k : Int) (doc : ProcessedDocument)
    (rest : List (Int × ProcessedDocument)) (cur id : Int) :
    MemStorage.getDocument ⟨(k, doc) :: rest, cur⟩ id
      = if k = id then some doc else MemStorage.getDocument ⟨rest, cur⟩ id := by
  by_cases h : k = id <;> simp [MemStorage.getDocument, List.find?_cons, h]

/-- A run of `createDocument` calls assigns the consecutive ids
`currentId, currentId + 1, ...` in call order. -/
theorem createMany_ids : ∀ (ds : List (InsertDocument × Int)) (s : MemStorage),
    ((s.createMany ds).1.map (fun doc => doc.id))
      = (List.range ds.length).map (fun i : Nat => s.currentId + (i : Int))
  | [], s => by simp [MemStorage.createMany]
  | (d, now) :: rest, s => by
    have ih := createMany_ids rest (s.createDocument d now).2
    simp only [MemStorage.createDocument] at ih
    simp only [MemStorage.createMany, MemStorage.createDocument, List.map_cons, ih,
      List.length_cons, List.range_succ_eq_map, List.map_map]
    congr 1
    · simp
    · apply List.map_congr_left
      intro i _
      simp only [Function.comp_apply]
      push_cast
      omega

/-- An id unknown to the store and distinct from every id a run of
`createDocument` calls will assign is still unknown afterwards. -/
theorem createMany_get_none : ∀ (ds : List (InsertDocument × Int)) (s : MemStorage) (id : Int),
    s.getDocument id = none →
    (∀ i : Nat, i < ds.length → id ≠ s.currentId + (i : Int)) →
    ((s.createMany ds).2).getDocument id = none
  | [], _, _, h0, _ => h0
  | (d, now) :: rest, s, id, h0, hne => by
    have hid : s.currentId ≠ id := by
      intro he
      exact hne 0 (by simp) (by simp [he])
    have h0' : ((s.createDocument d now).2).getDocument id = none := by
      simp only [MemStorage.createDocument]
      rw [getDocument_cons]
      simp only [hid, if_false]
      exact h0
    have hne' : ∀ i : Nat, i < rest.length →
        id ≠ ((s.createDocument d now).2).currentId + (i : Int) := by
      intro i hi
      have h := hne (i + 1) (by simpa using Nat.succ_lt_succ hi)
      simp only [MemStorage.createDocument]
      push_cast at h ⊢
      omega
    simp only [MemStorage.createMany]
    exact createMany_get_none rest (s.createDocument d now).2 id h0' hne'

/-- Claim C3: N creates on a fresh store assign exactly the ids 1, 2, ..., N
in call order (hence distinct, contiguous, increasing, never reused), and
`getDocument` on any id never issued — 0, negative, or beyond the counter —
returns not-found. -/
theorem claim_C3_ids (ds : List (InsertDocument × Int)) :
    ((MemStorage.empty.createMany ds).1.map (fun doc => doc.id))
      = (List.range ds.length).map (fun i : Nat => 1 + (i : Int)) ∧
    ∀ id : Int, id ∉ ((MemStorage.empty.createMany ds).1.map (fun doc => doc.id)) →
      ((MemStorage.empty.createMany ds).2).getDocument id = none := by
  have h1 := createMany_ids ds MemStorage.empty
  have hcur : MemStorage.empty.currentId = 1 := rfl
  rw [hcur] at h1
  refine ⟨h1, fun id hid => ?_⟩
  apply createMany_get_none
  · rfl
  · intro i hi hne
    apply hid
    rw [h1]
    rw [hcur] at hne
    simp only [List.mem_map, List.mem_range]
    exact ⟨i, hi, by omega⟩

/-- Witness for C3: two creates on a fresh store yield ids [1, 2]; id 0 was
never issued, and `getDocument 0` returns not-found. -/
theorem claim_C3_witness :
    ((MemStorage.empty.createMany [(sampleInsert, 5), (sampleInsert, 6)]).1.map
        (fun doc => doc.id) = [1, 2]) ∧
    ((0 : Int) ∉ (MemStorage.empty.createMany [(sampleInsert, 5), (sampleInsert, 6)]).1.map
        (fun doc => doc.id)) ∧
    ((MemStorage.empty.createMany [(sampleInsert, 5), (sampleInsert, 6)]).2).getDocument 0
        = none :=
  ⟨by decide, by decide, (claim_C3_ids [(sampleInsert, 5), (sampleInsert, 6)]).2 0 (by decide)⟩

/-- Claim C8: an upload request with no file is answered 400 "No file
uploaded" regardless of the other form fields, the store is untouched, and no
MIME-type or file-size validation step occurs at all (the only recorded event
is the missing-file report), so the missing-file condition is settled before
any MIME/size validation could run. -/
theorem claim_C8_missing_file (s : MemStorage) (fn ln dob : Option String)
    (now : Int) (today : Date) :
    uploadHandler s ⟨none, fn, ln, dob⟩ now today
      = (.failure 400 "No file uploaded", s, [.missingFileReported]) ∧
    Event.mimeChecked ∉ (uploadHandler s ⟨none, fn, ln, dob⟩ now today).2.2 ∧
    Event.sizeChecked ∉ (uploadHandler s ⟨none, fn, ln, dob⟩ now today).2.2 := by
  refine ⟨rfl, by simp [uploadHandler], by simp [uploadHandler]⟩

/-- Claim C10: for every date of birth strictly after the reference date the
age calculator returns a negative integer, and the pipeline has no past-date
check: a concrete upload with dateOfBirth 2030-01-01 processed on 2024-06-01
succeeds end to end, storing and returning age -6 with a 200 response. -/
theorem claim_C10_negative_age :
    (∀ dob ref : Date, dateBefore ref dob → calculateAge dob ref < 0) ∧
    uploadHandler MemStorage.empty
        ⟨some samplePdf, some "Jane", some "Doe", some "2030-01-01"⟩ 7 ⟨2024, 6, 1⟩
      = (.success 1 "Jane Doe" (some (-6)) "hello" "f.pdf" "application/pdf",
         ⟨[(1, ⟨1, "Jane", "Doe", "2030-01-01", "Jane Doe", some (-6),
               "hello", "f.pdf", "application/pdf", 7⟩)], 2⟩,
         [.mimeChecked, .sizeChecked, .schemaChecked, .extractionAttempted,
          .documentCreated]) := by
  refine ⟨fun dob ref h => ?_, by decide⟩
  unfold dateBefore at h
  simp only [calculateAge]
  split_ifs with h1 <;> omega

/-- Witness for C10: 2030-01-01 is strictly after 2024-06-01 and the computed
age is negative. -/
theorem claim_C10_witness :
    dateBefore ⟨2024, 6, 1⟩ ⟨2030, 1, 1⟩ ∧ calculateAge ⟨2030, 1, 1⟩ ⟨2024, 6, 1⟩ < 0 :=
  ⟨by decide, claim_C10_negative_age.1 ⟨2030, 1, 1⟩ ⟨2024, 6, 1⟩ (by decide)⟩

/-- Claim C4: the upload pipeline writes to the store only when validation,
extraction and derived-field computation all succeed — every non-success
response leaves the store exactly as it was, and a success response leaves it
extended by exactly the one created document (all-or-nothing write). -/
theorem claim_C4_all_or_nothing (s : MemStorage) (req : UploadRequest) (now : Int)
    (today : Date) :
    ((uploadHandler s req now today).1.isSuccess = false →
        (uploadHandler s req now today).2.1 = s) ∧
    ((uploadHandler s req now today).1.isSuccess = true →
        ∃ d : InsertDocument,
          (uploadHandler s req now today).2.1 = (s.createDocument d now).2) := by
  unfold uploadHandler
  rcases req with ⟨file, fn, ln, dob⟩
  cases file with
  | none => exact ⟨fun _ => rfl, fun h => by simp [UploadResponse.isSuccess] at h⟩
  | some f =>
    rcases hm : multerStage f with ⟨merr, evs⟩
    cases merr with
    | some msg => simp [hm, UploadResponse.isSuccess]
    | none =>
      cases hz : zodCheck fn ln dob with
      | error errs => simp [hm, hz, UploadResponse.isSuccess]
      | ok v =>
        rcases v with ⟨a, b, c⟩
        cases hx : extractTextFromFile f with
        | error m => simp [hm, hz, hx, UploadResponse.isSuccess]
        | ok t =>
          refine ⟨fun h => ?_, fun _ => ?_⟩
          · simp [hm, hz, hx, UploadResponse.isSuccess] at h
          · exact Exists.intro
              { firstName := a
                lastName := b
                dateOfBirth := c
                fullName := a ++ " " ++ b
                age := calculateAgeJS c today
                extractedText := t
                fileName := f.originalname
                fileType := f.mimetype }
              (by simp [hm, hz, hx])

/-- Witness for C4: the upload with no file fails and leaves the fresh store
unchanged. -/
theorem claim_C4_witness :
    ((uploadHandler MemStorage.empty ⟨none, none, none, none⟩ 0 ⟨2024, 1, 1⟩).1.isSuccess
        = false) ∧
    (uploadHandler MemStorage.empty ⟨none, none, none, none⟩ 0 ⟨2024, 1, 1⟩).2.1
        = MemStorage.empty :=
  ⟨by decide,
   (claim_C4_all_or_nothing MemStorage.empty ⟨none, none, none, none⟩ 0 ⟨2024, 1, 1⟩).1
     (by decide)⟩

/-- Claim C5: for a file of any validated MIME type, an exception from the
underlying PDF or OCR capability is re-signalled uniformly as the single
extraction failure `Text extraction failed: <original message>` — the same
wrapping whichever capability failed — and the upload handler surfaces it as
a 500 response whose message is exactly that wrapped string, hence contains
the original diagnostic detail. -/
theorem claim_C5_extraction_failure (s : MemStorage) (f : FileInfo)
    (fn ln dob : String) (now : Int) (today : Date) (msg : String)
    (hmime : f.mimetype ∈ allowedTypes)
    (hsize : f.size ≤ maxFileSize)
    (hraise : (if f.mimetype = "application/pdf" then f.pdfOutcome else f.ocrOutcome)
        = .raise msg)
    (hfn : fn.isEmpty = false) (hln : ln.isEmpty = false) (hdob : dob.isEmpty = false) :
    extractTextFromFile f = .error ("Text extraction failed: " ++ msg) ∧
    uploadHandler s ⟨some f, some fn, some ln, some dob⟩ now today
      = (.failure 500 ("Text extraction failed: " ++ msg), s,
         [.mimeChecked, .sizeChecked, .schemaChecked, .extractionAttempted]) := by
  have hx : extractTextFromFile f = .error ("Text extraction failed: " ++ msg) := by
    have hcases : f.mimetype = "image/jpeg" ∨ f.mimetype = "image/jpg"
        ∨ f.mimetype = "image/png" ∨ f.mimetype = "application/pdf" := by
      simpa [allowedTypes] using hmime
    rcases hcases with h | h | h | h
    · have hneq : ¬ f.mimetype = "application/pdf" := by rw [h]; decide
      rw [if_neg hneq] at hraise
      simp only [extractTextFromFile]
      rw [if_neg hneq, if_pos (by rw [h]; decide), hraise]
    · have hneq : ¬ f.mimetype = "application/pdf" := by rw [h]; decide
      rw [if_neg hneq] at hraise
      simp only [extractTextFromFile]
      rw [if_neg hneq, if_pos (by rw [h]; decide), hraise]
    · have hneq : ¬ f.mimetype = "application/pdf" := by rw [h]; decide
      rw [if_neg hneq] at hraise
      simp only [extractTextFromFile]
      rw [if_neg hneq, if_pos (by rw [h]; decide), hraise]
    · rw [if_pos h] at hraise
      simp only [extractTextFromFile]
      rw [if_pos h, hraise]
  have h1 : multerStage f = (none, [.mimeChecked, .sizeChecked]) := by
    simp [multerStage, hmime, hsize]
  have h2 : zodCheck (some fn) (some ln) (some dob) = .ok (fn, ln, dob) := by
    simp [zodCheck, fieldErrors, hfn, hln, hdob]
  refine ⟨hx, ?_⟩
  simp [uploadHandler, h1, h2, hx]

/-- Witness for C5: a valid PDF upload whose pdf-parse call raises "boom" is
answered 500 with the uniform wrapped message and the store is untouched. -/
theorem claim_C5_witness :
    brokenPdf.mimetype ∈ allowedTypes ∧
    brokenPdf.size ≤ maxFileSize ∧
    (if brokenPdf.mimetype = "application/pdf" then brokenPdf.pdfOutcome
      else brokenPdf.ocrOutcome) = .raise "boom" ∧
    extractTextFromFile brokenPdf = .error ("Text extraction failed: " ++ "boom") ∧
    uploadHandler MemStorage.empty
        ⟨some brokenPdf, some "Jane", some "Doe", some "2000-03-15"⟩ 7 ⟨2024, 6, 1⟩
      = (.failure 500 ("Text extraction failed: " ++ "boom"), MemStorage.empty,
         [.mimeChecked, .sizeChecked, .schemaChecked, .extractionAttempted]) := by
  refine ⟨by decide, by decide, by decide, ?_, ?_⟩
  · exact (claim_C5_extraction_failure MemStorage.empty brokenPdf "Jane" "Doe" "2000-03-15"
      7 ⟨2024, 6, 1⟩ "boom" (by decide) (by decide) (by decide)
      (by decide) (by decide) (by decide)).1
  · exact (claim_C5_extraction_failure MemStorage.empty brokenPdf "Jane" "Doe" "2000-03-15"
      7 ⟨2024, 6, 1⟩ "boom" (by decide) (by decide) (by decide)
      (by decide) (by decide) (by decide)).2

/-- Claim C6: the lookup route answers 400 "Invalid document ID" when the id
path segment does not parse as a base-10 integer (JavaScript `parseInt`
yields NaN), 404 "Document not found" when the parsed id names no stored
document, and otherwise 200 with the full stored document, every field
included. -/
theorem claim_C6_lookup (s : MemStorage) (idStr : String) :
    (parseIntJS idStr = none → getDocumentHandler s idStr = .err 400 "Invalid document ID") ∧
    (∀ id : Int, parseIntJS idStr = some id → s.getDocument id = none →
        getDocumentHandler s idStr = .err 404 "Document not found") ∧
    (∀ id : Int, ∀ doc : ProcessedDocument, parseIntJS idStr = some id →
        s.getDocument id = some doc → getDocumentHandler s idStr = .ok doc) :=
  ⟨fun h => by simp [getDocumentHandler, h],
   fun id h1 h2 => by simp [getDocumentHandler, h1, h2],
   fun id doc h1 h2 => by simp [getDocumentHandler, h1, h2]⟩

/-- Witness for C6: "abc" and "0x" (hex prefix with no hex digit, NaN under
`parseInt`) yield 400; "99" parses but is unknown, 404; "1" yields the full
stored document; and "0x10" parses as 16 in radix 16, yielding document 16 on
a store that holds it. -/
theorem claim_C6_witness :
    (parseIntJS "abc" = none ∧
      getDocumentHandler sampleStore "abc" = .err 400 "Invalid document ID") ∧
    (parseIntJS "0x" = none ∧
      getDocumentHandler sampleStore "0x" = .err 400 "Invalid document ID") ∧
    (parseIntJS "99" = some 99 ∧ sampleStore.getDocument 99 = none ∧
      getDocumentHandler sampleStore "99" = .err 404 "Document not found") ∧
    (parseIntJS "1" = some 1 ∧ sampleStore.getDocument 1 = some sampleStored ∧
      getDocumentHandler sampleStore "1" = .ok sampleStored) ∧
    (parseIntJS "0x10" = some 16 ∧ hexStore.getDocument 16 = some hexStored ∧
      getDocumentHandler hexStore "0x10" = .ok hexStored) :=
  ⟨⟨by decide, (claim_C6_lookup sampleStore "abc").1 (by decide)⟩,
   ⟨by decide, (claim_C6_lookup sampleStore "0x").1 (by decide)⟩,
   ⟨by decide, by decide, (claim_C6_lookup sampleStore "99").2.1 99 (by decide) (by decide)⟩,
   ⟨by decide, by decide,
    (claim_C6_lookup sampleStore "1").2.2 1 sampleStored (by decide) (by decide)⟩,
   ⟨by decide, by decide,
    (claim_C6_lookup hexStore "0x10").2.2 16 hexStored (by decide) (by decide)⟩⟩

/-- Counterexample to claim C7: the non-empty dateOfBirth "hello" is not in
YYYY-MM-DD form, yet `uploadSchema` validation succeeds (no InvalidFormData),
and with a valid file the pipeline goes on to attempt extraction and to
persist a document — contradicting the claim that such input fails validation
with no extraction or persistence attempted. -/
theorem claim_C7_counterexample :
    "hello".isEmpty = false ∧
    isYYYYMMDDSpec "hello" = false ∧
    zodCheck (some "Jane") (some "Doe") (some "hello") = .ok ("Jane", "Doe", "hello") ∧
    Event.extractionAttempted
      ∈ (uploadHandler MemStorage.empty
          ⟨some samplePdf, some "Jane", some "Doe", some "hello"⟩ 7 ⟨2024, 6, 1⟩).2.2 ∧
    Event.documentCreated
      ∈ (uploadHandler MemStorage.empty
          ⟨some samplePdf, some "Jane", some "Doe", some "hello"⟩ 7 ⟨2024, 6, 1⟩).2.2 := by
  refine ⟨by decide, by decide, by decide, by decide, by decide⟩

/-- Claim C7 as amended: form validation only requires the three fields to be
present and non-empty; a non-empty dateOfBirth that is not in YYYY-MM-DD form
passes validation, and with a valid file the pipeline proceeds to attempt
extraction. -/
theorem claim_C7_amended (f : FileInfo) (fn ln dob : String)
    (s : MemStorage) (now : Int) (today : Date)
    (hmime : f.mimetype ∈ allowedTypes) (hsize : f.size ≤ maxFileSize)
    (hfn : fn.isEmpty = false) (hln : ln.isEmpty = false) (hdob : dob.isEmpty = false) :
    zodCheck (some fn) (some ln) (some dob) = .ok (fn, ln, dob) ∧
    Event.extractionAttempted
      ∈ (uploadHandler s ⟨some f, some fn, some ln, some dob⟩ now today).2.2 := by
  have h2 : zodCheck (some fn) (some ln) (some dob) = .ok (fn, ln, dob) := by
    simp [zodCheck, fieldErrors, hfn, hln, hdob]
  have h1 : multerStage f = (none, [.mimeChecked, .sizeChecked]) := by
    simp [multerStage, hmime, hsize]
  refine ⟨h2, ?_⟩
  cases hx : extractTextFromFile f with
  | error m => simp [uploadHandler, h1, h2, hx]
  | ok t => simp [uploadHandler, h1, h2, hx]

/-- Witness for the amended C7 at the ill-formed date string "hello". -/
theorem claim_C7_amended_witness :
    ("hello".isEmpty = false) ∧
    zodCheck (some "Jane") (some "Doe") (some "hello") = .ok ("Jane", "Doe", "hello") ∧
    Event.extractionAttempted
      ∈ (uploadHandler MemStorage.empty
          ⟨some brokenPdf, some "Jane", some "Doe", some "hello"⟩ 7 ⟨2024, 6, 1⟩).2.2 :=
  ⟨by decide,
   (claim_C7_amended brokenPdf "Jane" "Doe" "hello" MemStorage.empty 7 ⟨2024, 6, 1⟩
      (by decide) (by decide) (by decide) (by decide) (by decide)).1,
   (claim_C7_amended brokenPdf "Jane" "Doe" "hello" MemStorage.empty 7 ⟨2024, 6, 1⟩
      (by decide) (by decide) (by decide) (by decide) (by decide)).2⟩
